import Mathlib

/-!
Verification of the Porto relay protocol client and session manager of the
rise-mobile-example repository.  The definitions below are shallow embeddings
of the TypeScript sources:

* src/lib/porto/client.ts   (class PortoClient)
* src/lib/porto/types.ts    (request/response record shapes)
* src/lib/simple-porto.ts   (module of free functions)
* src/lib/porto/session.ts  (class SessionManager)

JavaScript strings are modelled as Lean strings, JSON values by the inductive
type Json below, numbers that the code compares with integer literals as Int,
thrown exceptions as the error side of Except, and the HTTP transport and the
signing collaborator as explicit function parameters.
-/

/-- Untyped JSON value, the shape of relay request and response bodies. -/
inductive Json where
  | null : Json
  | bool : Bool → Json
  | num : Int → Json
  | str : String → Json
  | arr : List Json → Json
  | obj : List (String × Json) → Json

namespace Json

/-- JavaScript property access v.k on a parsed JSON value: a lookup in an
object, undefined (none) on everything else. -/
def getField : Json → String → Option Json
  | .obj fields, k => fields.lookup k
  | _, _ => none

/-- JavaScript truthiness of a JSON value (NaN does not occur in the model). -/
def truthy : Json → Bool
  | .null => false
  | .bool b => b
  | .num n => n != 0
  | .str s => s != ""
  | .arr _ => true
  | .obj _ => true

mutual

/-- JavaScript string coercion, as performed by the Error constructor.
Arrays are joined with commas as Array.prototype.toString does; the
treatment of null entries inside arrays is approximated. -/
def jsString : Json → String
  | .null => "null"
  | .bool b => if b then "true" else "false"
  | .num n => toString n
  | .str s => s
  | .arr xs => String.intercalate (",") (jsStringList xs)
  | .obj _ => "[object Object]"

/-- Coercion of every element of a JSON array to a string. -/
def jsStringList : List Json → List String
  | [] => []
  | j :: js => jsString j :: jsStringList js

end

end Json

/-- Truthiness of a possibly-undefined JavaScript value. -/
def jsTruthyOpt : Option Json → Bool
  | none => false
  | some j => j.truthy

/-- JavaScript expression a || b on a possibly-undefined a. -/
def jsOrElse (v : Option Json) (fallback : Json) : Json :=
  match v with
  | some j => if j.truthy then j else fallback
  | none => fallback

/-- Outcome of the fetch call inside rpcCall / relayCall: either the promise
rejects (network failure) or an HTTP response arrives, with response.ok
(status in the 2xx range), the numeric status, and the parsed JSON body. -/
inductive HttpOutcome where
  | networkError : String → HttpOutcome
  | response : Bool → Nat → Json → HttpOutcome

/-- The message of the Error thrown by rpcCall on a truthy error field:
result.error.message || (an RPC call failed default). -/
def relayErrorMessage (body : Json) : String :=
  match body.getField ("error") with
  | some e =>
    match e.getField ("message") with
    | some m => if m.truthy then m.jsString else "RPC call failed"
    | none => "RPC call failed"
  | none => "RPC call failed"

namespace PortoClient

/-- PortoClient.rpcCall of client.ts: POST the envelope, throw on a non-2xx
response, throw the relay-supplied message on a truthy error field, and
otherwise return result.result (undefined, i.e. none, when absent). -/
def rpcCall : HttpOutcome → Except String (Option Json)
  | .networkError cause => Except.error cause
  | .response ok status body =>
    if !ok then Except.error ("HTTP error! status: " ++ toString status)
    else if jsTruthyOpt (body.getField ("error")) then
      Except.error (relayErrorMessage body)
    else Except.ok (body.getField ("result"))

end PortoClient

namespace SimplePorto

/-- relayCall of simple-porto.ts: POST the envelope, throw on a non-2xx
response, and otherwise return the whole parsed body without inspecting it. -/
def relayCall : HttpOutcome → Except String Json
  | .networkError cause => Except.error cause
  | .response ok status body =>
    if !ok then Except.error ("HTTP error! status: " ++ toString status)
    else Except.ok body

end SimplePorto

/-! ## String helpers used by serializePublicKey

The JavaScript string methods that serializePublicKey calls, modelled
character-wise over the underlying character list. -/

/-- address.toLowerCase(): character-wise ASCII lowering (hex addresses are
ASCII, and Char.toLower is exactly basic-latin lowering). -/
def jsToLowerCase (s : String) : String :=
  String.mk (s.data.map Char.toLower)

/-- s.slice(2): drop the first two characters. -/
def jsSliceFrom2 (s : String) : String :=
  String.mk (s.data.drop 2)

/-- s.padStart(64, zero digit): left-pad with zero characters to length 64,
returning s unchanged when it is already at least that long. -/
def jsPadStart64Zero (s : String) : String :=
  if s.length < 64 then String.mk (List.replicate (64 - s.length) '0' ++ s.data)
  else s

/-- serializePublicKey, defined identically in client.ts (private method of
PortoClient) and in simple-porto.ts: lowercase the address; when the whole
string is shorter than 66 characters, strip the first two characters,
left-pad the rest with zero digits to 64 and re-attach the 0x header;
otherwise return the lowercased string unchanged. -/
def serializePublicKey (address : String) : String :=
  let cleanAddress := jsToLowerCase address
  if cleanAddress.length < 66 then
    "0x" ++ jsPadStart64Zero (jsSliceFrom2 cleanAddress)
  else cleanAddress

/-! ## Record shapes of types.ts and the signing collaborator -/

/-- The signing collaborator of the spec: a derived address plus an opaque
sign(hash) capability (viem PrivateKeyAccount in the source). -/
structure Account where
  address : String
  sign : String → String

/-- PortoKey of types.ts; optional fields are absent (none) when a request
literal omits them. -/
structure PortoKey where
  prehash : Bool
  publicKey : String
  type : String
  role : Option String
  expiry : Option String
  permissions : Option (List String)

/-- The capabilities block: meta.feeToken for call sponsorship,
authorizeKeys for delegation setup. -/
structure PortoCapabilities where
  feeToken : Option String
  authorizeKeys : Option (List PortoKey)

/-- PortoCall of types.ts: one {to, data, value} call triple. -/
structure PortoCall where
  «to» : String
  data : String
  value : String

/-- PrepareUpgradeRequest of types.ts. -/
structure PrepareUpgradeRequest where
  address : String
  delegation : String
  capabilities : PortoCapabilities
  chainId : Nat

/-- PrepareUpgradeResponse of types.ts: opaque context and the two digests. -/
structure PrepareUpgradeResponse where
  context : Json
  digestsAuth : String
  digestsExec : String

/-- UpgradeAccountRequest of types.ts: the echoed context plus the two
signatures over the digests. -/
structure UpgradeAccountRequest where
  context : Json
  authSignature : String
  execSignature : String

/-- PrepareCallsRequest of types.ts. -/
structure PrepareCallsRequest where
  sender : String
  chainId : Nat
  calls : List PortoCall
  capabilities : PortoCapabilities
  key : Option PortoKey

/-- PrepareCallsResponse of types.ts: opaque context and the digest to sign. -/
structure PrepareCallsResponse where
  context : Json
  digest : String

/-- SendPreparedCallsRequest of types.ts. -/
structure SendPreparedCallsRequest where
  context : Json
  key : PortoKey
  signature : String

/-- TransactionStatus receipt entry of types.ts. -/
structure TransactionReceipt where
  status : String
  gasUsed : String
  transactionHash : String
  blockNumber : String
deriving DecidableEq

/-- TransactionStatus of types.ts: numeric status plus optional receipts. -/
structure TransactionStatus where
  id : String
  status : Int
  receipts : Option (List TransactionReceipt)
deriving DecidableEq

namespace PortoClient

/-- The key descriptor built by prepareCalls and sendPreparedCalls of
client.ts, naming the padded public key of the client account. -/
def keyDescriptorOf (acct : Account) : PortoKey :=
  { prehash := false
    publicKey := serializePublicKey acct.address
    type := "secp256k1"
    role := none
    expiry := none
    permissions := none }

/-- The wallet_prepareUpgradeAccount request built by setupDelegation of
client.ts: the optional admin key is authorized with role admin and no
expiry, and the delegation proxy address comes from configuration. -/
def prepareUpgradeRequestOf (acct : Account) (chainId : Nat) (proxy : String)
    (adminKeyAddress : Option String) : PrepareUpgradeRequest :=
  { address := acct.address
    delegation := proxy
    capabilities :=
      { feeToken := none
        authorizeKeys := some (match adminKeyAddress with
          | some a =>
            [{ prehash := false
               publicKey := serializePublicKey a
               type := "secp256k1"
               role := some ("admin")
               expiry := some ("0x0")
               permissions := some [] }]
          | none => []) }
    chainId := chainId }

/-- The wallet_upgradeAccount request built by setupDelegation of client.ts:
the context of the prepare response, forwarded unmodified, plus the account
signatures over both digests. -/
def upgradeRequestOf (acct : Account) (prep : PrepareUpgradeResponse) :
    UpgradeAccountRequest :=
  { context := prep.context
    authSignature := acct.sign prep.digestsAuth
    execSignature := acct.sign prep.digestsExec }

/-- PortoClient.setupDelegation of client.ts.  The account is none when init
was never called.  The relay is modelled by one response function per RPC
method; the second component counts the relay requests issued.  The try
block catches every relay failure and turns it into the value false. -/
def setupDelegation (account : Option Account) (chainId : Nat) (proxy : String)
    (adminKeyAddress : Option String)
    (relayPrepare : PrepareUpgradeRequest → Except String PrepareUpgradeResponse)
    (relayUpgrade : UpgradeAccountRequest → Except String Json) :
    Except String Bool × Nat :=
  match account with
  | none => (Except.error ("Client not initialized"), 0)
  | some acct =>
    match relayPrepare (prepareUpgradeRequestOf acct chainId proxy adminKeyAddress) with
    | Except.error _ => (Except.ok false, 1)
    | Except.ok prep =>
      match relayUpgrade (upgradeRequestOf acct prep) with
      | Except.error _ => (Except.ok false, 2)
      | Except.ok _ => (Except.ok true, 2)

/-- The wallet_prepareCalls request built by prepareCalls of client.ts: the
zero address as sponsored fee token, and the account's padded public key. -/
def prepareCallsRequestOf (acct : Account) (chainId : Nat) (calls : List PortoCall) :
    PrepareCallsRequest :=
  { sender := acct.address
    chainId := chainId
    calls := calls
    capabilities :=
      { feeToken := some ("0x0000000000000000000000000000000000000000")
        authorizeKeys := none }
    key := some (keyDescriptorOf acct) }

/-- PortoClient.prepareCalls of client.ts.  Throws when the client is not
initialized, before any relay request is issued; otherwise issues exactly
one wallet_prepareCalls request and propagates its outcome. -/
def prepareCalls (account : Option Account) (chainId : Nat) (calls : List PortoCall)
    (relay : PrepareCallsRequest → Except String PrepareCallsResponse) :
    Except String PrepareCallsResponse × Nat :=
  match account with
  | none => (Except.error ("Client not initialized"), 0)
  | some acct => (relay (prepareCallsRequestOf acct chainId calls), 1)

/-- The wallet_sendPreparedCalls request built by sendPreparedCalls of
client.ts: the caller-supplied context, the account's key descriptor, and
the account's signature over the digest. -/
def sendRequestOf (acct : Account) (context : Json) (digest : String) :
    SendPreparedCallsRequest :=
  { context := context
    key := keyDescriptorOf acct
    signature := acct.sign digest }

/-- PortoClient.sendPreparedCalls of client.ts.  The second component lists
the relay requests issued.  The result is response.id || response, i.e. the
id field when present and truthy, the whole result value otherwise. -/
def sendPreparedCalls (account : Option Account) (context : Json) (digest : String)
    (relay : SendPreparedCallsRequest → Except String Json) :
    Except String Json × List SendPreparedCallsRequest :=
  match account with
  | none => (Except.error ("Client not initialized"), [])
  | some acct =>
    match relay (sendRequestOf acct context digest) with
    | Except.error e => (Except.error e, [sendRequestOf acct context digest])
    | Except.ok response =>
      (Except.ok (jsOrElse (response.getField ("id")) response),
        [sendRequestOf acct context digest])

/-- The polling loop of PortoClient.waitForTransaction of client.ts.  The
oracle gives the outcome of getCallsStatus on each attempt (the error side
when getCallsStatus throws); fuel is the number of loop iterations left and
i the current loop index; the second component counts the status polls
issued.  Statuses 200 and 1 return the status; a status at or above 400
throws an error naming the status, but that throw happens inside the try
block, whose catch rethrows only on the last attempt (i = maxAttempts - 1)
and otherwise continues the loop.  Exhausted fuel means the loop ended and
the transaction timeout error is thrown. -/
def waitAux (oracle : Nat → Except String TransactionStatus) (maxAttempts : Nat) :
    Nat → Nat → Except String TransactionStatus × Nat
  | 0, _ => (Except.error ("Transaction timeout"), 0)
  | fuel + 1, i =>
    match oracle i with
    | Except.ok status =>
      if status.status = 200 ∨ status.status = 1 then (Except.ok status, 1)
      else if 400 ≤ status.status then
        if i = maxAttempts - 1 then
          (Except.error ("Transaction failed with status " ++ toString status.status), 1)
        else
          let r := waitAux oracle maxAttempts fuel (i + 1)
          (r.1, r.2 + 1)
      else
        let r := waitAux oracle maxAttempts fuel (i + 1)
        (r.1, r.2 + 1)
    | Except.error e =>
      if i = maxAttempts - 1 then (Except.error e, 1)
      else
        let r := waitAux oracle maxAttempts fuel (i + 1)
        (r.1, r.2 + 1)

/-- PortoClient.waitForTransaction of client.ts: run the polling loop from
index 0 with maxAttempts iterations available. -/
def waitForTransaction (oracle : Nat → Except String TransactionStatus)
    (maxAttempts : Nat) : Except String TransactionStatus × Nat :=
  waitAux oracle maxAttempts maxAttempts 0

/-- A poll outcome that keeps the client loop polling: a delivered status
that is neither 200 nor 1 and below 400. -/
def pendingOutcome (r : Except String TransactionStatus) : Prop :=
  ∃ s, r = Except.ok s ∧ s.status ≠ 200 ∧ s.status ≠ 1 ∧ s.status < 400

end PortoClient

namespace SimplePorto

/-- The terminal-success test of waitForTransaction of simple-porto.ts:
status.status === 200 || status.status === the success string (strict
equality, so only a number equal to 200 or exactly that string passes). -/
def isTerminalSuccess (status : Json) : Bool :=
  match status.getField ("status") with
  | some (Json.num n) => n == 200
  | some (Json.str s) => s == "success"
  | _ => false

/-- The wallet_sendPreparedCalls request built by sendPreparedCalls of
simple-porto.ts from a prepareCalls result: the context forwarded
unmodified and the account signature over the digest. -/
def sendRequestOf (acct : Account) (prepareResult : PrepareCallsResponse) :
    SendPreparedCallsRequest :=
  { context := prepareResult.context
    key :=
      { prehash := false
        publicKey := serializePublicKey acct.address
        type := "secp256k1"
        role := none
        expiry := none
        permissions := none }
    signature := acct.sign prepareResult.digest }

/-- sendPreparedCalls of simple-porto.ts.  The relay returns the whole
response envelope (relayCall does not unwrap); a string result field is
wrapped into an object with an id field, any other result value is returned
as is (absent modelled as null).  The second component lists the issued
requests. -/
def sendPreparedCalls (acct : Account) (prepareResult : PrepareCallsResponse)
    (relay : SendPreparedCallsRequest → Except String Json) :
    Except String Json × List SendPreparedCallsRequest :=
  match relay (sendRequestOf acct prepareResult) with
  | Except.error e => (Except.error e, [sendRequestOf acct prepareResult])
  | Except.ok response =>
    match response.getField ("result") with
    | some (Json.str s) =>
      (Except.ok (Json.obj [("id", Json.str s)]), [sendRequestOf acct prepareResult])
    | some other => (Except.ok other, [sendRequestOf acct prepareResult])
    | none => (Except.ok Json.null, [sendRequestOf acct prepareResult])

/-- The polling loop of waitForTransaction of simple-porto.ts: sleep, poll
getCallsStatus (whose thrown errors propagate uncaught), return the status
on 200 or the success string, and otherwise count the attempt and loop.
There is no check for statuses at or above 400.  The second component
counts the status polls issued. -/
def waitAux (oracle : Nat → Except String Json) :
    Nat → Nat → Except String Json × Nat
  | 0, _ => (Except.error ("Transaction timeout"), 0)
  | fuel + 1, attempts =>
    match oracle attempts with
    | Except.error e => (Except.error e, 1)
    | Except.ok status =>
      if isTerminalSuccess status then (Except.ok status, 1)
      else
        let r := waitAux oracle fuel (attempts + 1)
        (r.1, r.2 + 1)

/-- waitForTransaction of simple-porto.ts. -/
def waitForTransaction (oracle : Nat → Except String Json) (maxAttempts : Nat) :
    Except String Json × Nat :=
  waitAux oracle maxAttempts 0

/-- A poll outcome that keeps the simple-porto loop polling: a delivered
status object that fails the terminal-success test. -/
def pendingOutcome (r : Except String Json) : Prop :=
  ∃ s, r = Except.ok s ∧ isTerminalSuccess s = false

end SimplePorto

/-! ## SessionManager of session.ts -/

/-- The three entries of the expo-secure-store collaborator that session.ts
uses: the main wallet secret, the session key secret, and the session
expiry (stored in the source as the decimal string of the epoch-millisecond
timestamp, modelled here as that number). -/
structure SecureStore where
  mainWallet : Option String
  sessionKey : Option String
  sessionExpiry : Option Nat
deriving DecidableEq

namespace SessionManager

/-- SessionManager.initMainWallet of session.ts.  addressOf models
privateKeyToAccount of viem (derivation of the address from a secret);
freshKey models the generatePrivateKey draw used when no key is persisted.
Returns the main address and the resulting store. -/
def initMainWallet (addressOf : String → String) (freshKey : String)
    (store : SecureStore) : String × SecureStore :=
  match store.mainWallet with
  | some privateKey => (addressOf privateKey, store)
  | none => (addressOf freshKey, { store with mainWallet := some freshKey })

/-- Result of createSessionKey: the session address, the resulting store,
the in-memory expiry, and whether setupDelegation was invoked. -/
structure CreateSessionResult where
  address : String
  store : SecureStore
  sessionExpiry : Nat
  delegationCalled : Bool

/-- SessionManager.createSessionKey of session.ts.  When both a session key
and an expiry are persisted and now is strictly before the expiry, the
persisted key is reused and nothing is written; otherwise a fresh key is
generated, persisted together with now + expiryHours hours, and
setupDelegation is invoked for the new session address. -/
def createSessionKey (addressOf : String → String) (now : Nat) (freshKey : String)
    (expiryHours : Nat) (store : SecureStore) : CreateSessionResult :=
  let renewed : CreateSessionResult :=
    let newExpiry := now + expiryHours * 60 * 60 * 1000
    { address := addressOf freshKey
      store := { store with sessionKey := some freshKey, sessionExpiry := some newExpiry }
      sessionExpiry := newExpiry
      delegationCalled := true }
  match store.sessionKey, store.sessionExpiry with
  | some existingKey, some expiry =>
    if now < expiry then
      { address := addressOf existingKey
        store := store
        sessionExpiry := expiry
        delegationCalled := false }
    else renewed
  | _, _ => renewed

end SessionManager

/-! ## Concrete fixtures used by counterexamples and witnesses -/

/-- A well-formed relay response body whose error field is populated: the
success-path claim requires a call to fail on it. -/
def errEnvelope : Json :=
  Json.obj [("error", Json.obj [("message", Json.str "boom")]),
    ("result", Json.str "ignored")]

/-- A pending client status (status 0) used to exercise the timeout path. -/
def pendingStatus : TransactionStatus :=
  { id := "0xbundle", status := 0, receipts := none }

/-- A failed client status (status 400). -/
def failedStatus : TransactionStatus :=
  { id := "0xbundle", status := 400, receipts := none }

/-- A successful client status (status 200). -/
def successStatus : TransactionStatus :=
  { id := "0xbundle", status := 200, receipts := none }

/-- A status oracle that reports failure 400 on the first poll and success
200 afterwards. -/
def failThenSucceed : Nat → Except String TransactionStatus :=
  fun i => if i = 0 then Except.ok failedStatus else Except.ok successStatus

/-- A concrete initialized account with a deterministic signer. -/
def demoAccount : Account :=
  { address := "0x1234567890123456789012345678901234567890"
    sign := fun digest => "0xsig-" ++ digest }

/-- A concrete store holding a persisted session key and expiry. -/
def demoStore : SecureStore :=
  { mainWallet := some ("0xmainsecret")
    sessionKey := some ("0xsessionsecret")
    sessionExpiry := some 1000 }

/-! ## Facts about characters and strings needed below -/

theorem string_data_append (a b : String) : (a ++ b).data = a.data ++ b.data := by
  cases a; cases b; rfl

theorem string_length_data (s : String) : s.length = s.data.length := rfl

theorem char_toLower_of_upper (c : Char) (h : 65 ≤ c.toNat ∧ c.toNat ≤ 90) :
    c.toLower = Char.ofNat (c.toNat + 32) := by
  simp only [Char.toLower]
  split
  · rfl
  · next hc => exact absurd ⟨h.1, h.2⟩ hc

theorem char_toLower_of_not_upper (c : Char) (h : ¬(65 ≤ c.toNat ∧ c.toNat ≤ 90)) :
    c.toLower = c := by
  simp only [Char.toLower]
  split
  · next hc => exact absurd ⟨hc.1, hc.2⟩ h
  · rfl

theorem char_toNat_ofNat_small (m : Nat) (hm : m < 55296) :
    (Char.ofNat m).toNat = m := by
  have hv : m.isValidChar := Or.inl hm
  rw [Char.ofNat, dif_pos hv]
  rfl

theorem char_toLower_idem (c : Char) : c.toLower.toLower = c.toLower := by
  by_cases h : 65 ≤ c.toNat ∧ c.toNat ≤ 90
  · rw [char_toLower_of_upper c h]
    apply char_toLower_of_not_upper
    rw [char_toNat_ofNat_small (c.toNat + 32) (by omega)]
    omega
  · rw [char_toLower_of_not_upper c h]
    exact char_toLower_of_not_upper c h

theorem map_toLower_idem : ∀ l : List Char,
    (l.map Char.toLower).map Char.toLower = l.map Char.toLower
  | [] => rfl
  | c :: l => by
    simp only [List.map_cons]
    rw [char_toLower_idem, map_toLower_idem l]

theorem jsToLowerCase_idem (s : String) :
    jsToLowerCase (jsToLowerCase s) = jsToLowerCase s := by
  unfold jsToLowerCase
  rw [map_toLower_idem]

theorem string_eq_of_data : ∀ {a b : String}, a.data = b.data → a = b
  | ⟨_⟩, ⟨_⟩, rfl => rfl

theorem string_data_mk (l : List Char) : (String.mk l).data = l := rfl

theorem string_length_mk (l : List Char) : (String.mk l).length = l.length := rfl

theorem jsToLowerCase_data (s : String) :
    (jsToLowerCase s).data = s.data.map Char.toLower := rfl

theorem jsToLowerCase_length (s : String) :
    (jsToLowerCase s).length = s.data.length := by
  rw [string_length_data, jsToLowerCase_data, List.length_map]

/-- Character-level computation of serializePublicKey: the short branch pads
the lowercased tail to 64 characters behind a 0x header, the long branch
returns the lowercased characters unchanged. -/
theorem serializePublicKey_data (s : String) :
    (serializePublicKey s).data =
      if s.data.length < 66 then
        '0' :: 'x' ::
          (List.replicate (64 - (s.data.length - 2)) '0' ++
            (s.data.map Char.toLower).drop 2)
      else s.data.map Char.toLower := by
  unfold serializePublicKey
  by_cases h : s.data.length < 66
  · rw [if_pos (show (jsToLowerCase s).length < 66 by rw [jsToLowerCase_length]; exact h)]
    rw [if_pos h]
    rw [string_data_append]
    have h2 : jsSliceFrom2 (jsToLowerCase s) =
        String.mk ((s.data.map Char.toLower).drop 2) := by
      unfold jsSliceFrom2
      rw [jsToLowerCase_data]
    rw [h2]
    have h3 : (String.mk ((s.data.map Char.toLower).drop 2)).length < 64 := by
      rw [string_length_mk]
      simp only [List.length_drop, List.length_map]
      omega
    unfold jsPadStart64Zero
    rw [if_pos h3, string_data_mk, string_length_mk]
    show ('0' :: 'x' :: List.nil) ++ _ = _
    simp only [List.length_drop, List.length_map, List.cons_append, List.nil_append]
  · rw [if_neg (show ¬ (jsToLowerCase s).length < 66 by rw [jsToLowerCase_length]; exact h)]
    rw [if_neg h]
    exact jsToLowerCase_data s

/-- Evaluation of serializePublicKey in the short branch: an address whose
hex digits after the 0x header number fewer than 64 is lowercased and the
digit part left-padded with zeros to 64. -/
theorem serializePublicKey_short (addr : String) (digits : List Char)
    (hdata : addr.data = '0' :: 'x' :: digits) (hlen : digits.length < 64) :
    serializePublicKey addr =
      String.mk ('0' :: 'x' ::
        (List.replicate (64 - digits.length) '0' ++ digits.map Char.toLower)) := by
  apply string_eq_of_data
  rw [serializePublicKey_data, string_data_mk, hdata]
  rw [if_pos (by simp only [List.length_cons]; omega)]
  simp only [List.length_cons, List.map_cons, List.drop_succ_cons, List.drop_zero]
  have harith : digits.length + 1 + 1 - 2 = digits.length := by omega
  rw [harith]

/-- Evaluation of serializePublicKey in the long branch: an address with at
least 64 hex digits after the 0x header is returned lowercased, unchanged. -/
theorem serializePublicKey_long (addr : String) (digits : List Char)
    (hdata : addr.data = '0' :: 'x' :: digits) (hlen : 64 ≤ digits.length) :
    serializePublicKey addr = jsToLowerCase addr := by
  apply string_eq_of_data
  rw [serializePublicKey_data, jsToLowerCase_data]
  rw [if_neg (by rw [hdata]; simp only [List.length_cons]; omega)]

/-- serializePublicKey is idempotent on every input string. -/
theorem serializePublicKey_idem (s : String) :
    serializePublicKey (serializePublicKey s) = serializePublicKey s := by
  apply string_eq_of_data
  rw [serializePublicKey_data (serializePublicKey s), serializePublicKey_data s]
  by_cases h : s.data.length < 66
  · rw [if_pos h]
    have hdlen : ((s.data.map Char.toLower).drop 2).length = s.data.length - 2 := by
      simp only [List.length_drop, List.length_map]
    rw [if_neg (by
      simp only [List.length_cons, List.length_append, List.length_replicate, hdlen]
      omega)]
    simp only [List.map_cons, List.map_append, List.map_replicate]
    rw [show Char.toLower '0' = '0' by decide, show Char.toLower 'x' = 'x' by decide]
    rw [List.map_drop, map_toLower_idem]
  · rw [if_neg h]
    rw [if_neg (by rw [List.length_map]; exact h)]
    rw [map_toLower_idem]


/-! ## Behaviour of the two polling loops on all-pending oracles -/

theorem waitAux_timeout_client (oracle : Nat → Except String TransactionStatus)
    (maxAttempts : Nat) :
    ∀ (fuel i : Nat), (∀ j, j < fuel → PortoClient.pendingOutcome (oracle (i + j))) →
      PortoClient.waitAux oracle maxAttempts fuel i =
        (Except.error ("Transaction timeout"), fuel)
  | 0, _, _ => rfl
  | fuel + 1, i, h => by
    obtain ⟨s, hs, h200, h1, h400⟩ := h 0 (Nat.succ_pos fuel)
    have hs' : oracle i = Except.ok s := by simpa using hs
    have hrec := waitAux_timeout_client oracle maxAttempts fuel (i + 1)
      (fun j hj => by
        have hmem := h (j + 1) (by omega)
        have heq : i + (j + 1) = i + 1 + j := by omega
        rwa [heq] at hmem)
    simp only [PortoClient.waitAux, hs']
    rw [if_neg (not_or.mpr ⟨h200, h1⟩), if_neg (not_le.mpr h400), hrec]

theorem waitAux_timeout_simple (oracle : Nat → Except String Json) :
    ∀ (fuel i : Nat), (∀ j, j < fuel → SimplePorto.pendingOutcome (oracle (i + j))) →
      SimplePorto.waitAux oracle fuel i = (Except.error ("Transaction timeout"), fuel)
  | 0, _, _ => rfl
  | fuel + 1, i, h => by
    obtain ⟨s, hs, hterm⟩ := h 0 (Nat.succ_pos fuel)
    have hs' : oracle i = Except.ok s := by simpa using hs
    have hrec := waitAux_timeout_simple oracle fuel (i + 1)
      (fun j hj => by
        have hmem := h (j + 1) (by omega)
        have heq : i + (j + 1) = i + 1 + j := by omega
        rwa [heq] at hmem)
    simp only [SimplePorto.waitAux, hs', hterm]
    rw [if_neg Bool.false_ne_true, hrec]

/-! ## Claim theorems -/

/-- Claim C1 (code evaluation at the failing input): in client.ts a ≥400
status on a poll that is not the final attempt does not stop the loop — the
thrown failure is caught by the surrounding catch and the status endpoint
is polled again, here resolving successfully on the second poll; and
simple-porto.ts never raises on a ≥400 status at all, polling every
remaining attempt and then timing out. -/
theorem claim_c1_swallowed_failure :
    PortoClient.waitForTransaction failThenSucceed 2 = (Except.ok successStatus, 2) ∧
    SimplePorto.waitForTransaction
      (fun _ => Except.ok (Json.obj [("status", Json.num 400)])) 2 =
      (Except.error ("Transaction timeout"), 2) := by
  constructor
  · rfl
  · rfl

/-- Claim C2: when every poll of wallet_getCallsStatus delivers a pending
status, both waitForTransaction implementations reject with the transaction
timeout error after issuing exactly maxAttempts status polls. -/
theorem claim_c2_timeout_exact (maxAttempts : Nat)
    (oracleC : Nat → Except String TransactionStatus)
    (oracleS : Nat → Except String Json)
    (hC : ∀ j, j < maxAttempts → PortoClient.pendingOutcome (oracleC j))
    (hS : ∀ j, j < maxAttempts → SimplePorto.pendingOutcome (oracleS j)) :
    PortoClient.waitForTransaction oracleC maxAttempts =
      (Except.error ("Transaction timeout"), maxAttempts) ∧
    SimplePorto.waitForTransaction oracleS maxAttempts =
      (Except.error ("Transaction timeout"), maxAttempts) := by
  constructor
  · exact waitAux_timeout_client oracleC maxAttempts maxAttempts 0
      (fun j hj => by simpa using hC j hj)
  · exact waitAux_timeout_simple oracleS maxAttempts 0
      (fun j hj => by simpa using hS j hj)

/-- Witness for claim C2: three all-pending polls produce the timeout error
after exactly three status calls, in both implementations. -/
theorem claim_c2_witness :
    PortoClient.waitForTransaction (fun _ => Except.ok pendingStatus) 3 =
      (Except.error ("Transaction timeout"), 3) ∧
    SimplePorto.waitForTransaction
      (fun _ => Except.ok (Json.obj [("status", Json.num 0)])) 3 =
      (Except.error ("Transaction timeout"), 3) :=
  claim_c2_timeout_exact 3 _ _
    (fun _ _ => ⟨pendingStatus, rfl, by decide, by decide, by decide⟩)
    (fun _ _ => ⟨Json.obj [("status", Json.num 0)], rfl, rfl⟩)

/-- Counterexample to claim C3: the simplified module's call operation
(relayCall of simple-porto.ts), one of the two cited implementations, does
not fail on a well-formed response body carrying an error field — it
returns the whole envelope as success. -/
theorem claim_c3_counterexample :
    jsTruthyOpt (errEnvelope.getField ("error")) = true ∧
    SimplePorto.relayCall (HttpOutcome.response true 200 errEnvelope) =
      Except.ok errEnvelope :=
  ⟨rfl, rfl⟩

/-- Claim C3 as amended: PortoClient.rpcCall behaves exactly as claimed —
transport error with the status or cause on HTTP-level failure, relay error
with the relay-supplied message on a truthy error field, and the result
field verbatim otherwise — while relayCall of simple-porto.ts shares only
the HTTP-level handling and otherwise returns the parsed envelope whole,
never inspecting the error field. -/
theorem claim_c3_amended :
    (∀ cause, PortoClient.rpcCall (HttpOutcome.networkError cause) = Except.error cause ∧
      SimplePorto.relayCall (HttpOutcome.networkError cause) = Except.error cause) ∧
    (∀ status body,
      PortoClient.rpcCall (HttpOutcome.response false status body) =
        Except.error ("HTTP error! status: " ++ toString status) ∧
      SimplePorto.relayCall (HttpOutcome.response false status body) =
        Except.error ("HTTP error! status: " ++ toString status)) ∧
    (∀ status body, jsTruthyOpt (body.getField ("error")) = true →
      PortoClient.rpcCall (HttpOutcome.response true status body) =
        Except.error (relayErrorMessage body)) ∧
    (∀ status body, jsTruthyOpt (body.getField ("error")) = false →
      PortoClient.rpcCall (HttpOutcome.response true status body) =
        Except.ok (body.getField ("result"))) ∧
    (∀ status body, SimplePorto.relayCall (HttpOutcome.response true status body) =
      Except.ok body) := by
  refine ⟨fun _ => ⟨rfl, rfl⟩, fun _ _ => ⟨rfl, rfl⟩, ?_, ?_, fun _ _ => rfl⟩
  · intro status body h
    simp [PortoClient.rpcCall, h]
  · intro status body h
    simp [PortoClient.rpcCall, h]

/-- Witness for claim C3 (amended): on a concrete envelope with a populated
error field, rpcCall fails with the relay-supplied message. -/
theorem claim_c3_witness :
    PortoClient.rpcCall (HttpOutcome.response true 200 errEnvelope) =
      Except.error (relayErrorMessage errEnvelope) :=
  claim_c3_amended.2.2.1 200 errEnvelope rfl

/-- Claim C5: serializePublicKey pads an address with fewer than 64 hex
digits after the 0x header to exactly 66 characters (0x plus the digits
left-padded with zeros to 64, lowercased), returns an address with at least
64 hex digits lowercased and otherwise unchanged, and is idempotent on
every input. -/
theorem claim_c5_serializePublicKey :
    (∀ (addr : String) (digits : List Char),
        addr.data = '0' :: 'x' :: digits → digits.length < 64 →
        serializePublicKey addr =
          String.mk ('0' :: 'x' ::
            (List.replicate (64 - digits.length) '0' ++ digits.map Char.toLower)) ∧
        (serializePublicKey addr).length = 66) ∧
    (∀ (addr : String) (digits : List Char),
        addr.data = '0' :: 'x' :: digits → 64 ≤ digits.length →
        serializePublicKey addr = jsToLowerCase addr) ∧
    (∀ s : String, serializePublicKey (serializePublicKey s) = serializePublicKey s) := by
  refine ⟨fun addr digits h1 h2 => ⟨serializePublicKey_short addr digits h1 h2, ?_⟩,
    serializePublicKey_long, serializePublicKey_idem⟩
  rw [serializePublicKey_short addr digits h1 h2, string_length_mk]
  simp only [List.length_cons, List.length_append, List.length_replicate, List.length_map]
  omega

/-- Witness for claim C5: the concrete address 0x123 is padded to 66
characters. -/
theorem claim_c5_witness :
    serializePublicKey (String.mk ['0', 'x', '1', '2', '3']) =
      String.mk ('0' :: 'x' ::
        (List.replicate (64 - (['1', '2', '3'] : List Char).length) '0' ++
          (['1', '2', '3'] : List Char).map Char.toLower)) ∧
    (serializePublicKey (String.mk ['0', 'x', '1', '2', '3'])).length = 66 :=
  claim_c5_serializePublicKey.1 (String.mk ['0', 'x', '1', '2', '3'])
    ['1', '2', '3'] rfl (by decide)

/-- Claim C4: in both implementations, the wallet_sendPreparedCalls request
issued after prepareCalls carries the prepare response's context unmodified
and a signature field equal to the signer's output over the returned
digest. -/
theorem claim_c4_context_passthrough (acct : Account) (prep : PrepareCallsResponse)
    (relayC relayS : SendPreparedCallsRequest → Except String Json) :
    (∃ r, (PortoClient.sendPreparedCalls (some acct) prep.context prep.digest relayC).2 = [r] ∧
      r.context = prep.context ∧ r.signature = acct.sign prep.digest) ∧
    (∃ r, (SimplePorto.sendPreparedCalls acct prep relayS).2 = [r] ∧
      r.context = prep.context ∧ r.signature = acct.sign prep.digest) := by
  constructor
  · refine ⟨PortoClient.sendRequestOf acct prep.context prep.digest, ?_, rfl, rfl⟩
    cases hr : relayC (PortoClient.sendRequestOf acct prep.context prep.digest) <;>
      simp [PortoClient.sendPreparedCalls, hr]
  · refine ⟨SimplePorto.sendRequestOf acct prep, ?_, rfl, rfl⟩
    cases hr : relayS (SimplePorto.sendRequestOf acct prep) with
    | error e => simp [SimplePorto.sendPreparedCalls, hr]
    | ok response =>
      cases hf : response.getField ("result") with
      | none => simp [SimplePorto.sendPreparedCalls, hr, hf]
      | some j => cases j <;> simp [SimplePorto.sendPreparedCalls, hr, hf]

/-- Claim C6: with a persisted session key and expiry and now strictly
before the expiry, createSessionKey returns the persisted key's address,
leaves the store unchanged, and does not invoke setupDelegation. -/
theorem claim_c6_session_reuse (addressOf : String → String) (now : Nat)
    (freshKey : String) (expiryHours : Nat) (store : SecureStore)
    (k : String) (e : Nat)
    (hk : store.sessionKey = some k) (he : store.sessionExpiry = some e)
    (hnow : now < e) :
    (SessionManager.createSessionKey addressOf now freshKey expiryHours store).address =
      addressOf k ∧
    (SessionManager.createSessionKey addressOf now freshKey expiryHours store).store =
      store ∧
    (SessionManager.createSessionKey addressOf now freshKey
      expiryHours store).delegationCalled = false := by
  simp [SessionManager.createSessionKey, hk, he, hnow]

/-- Witness for claim C6: a concrete store with a future expiry is reused
verbatim. -/
theorem claim_c6_witness :
    (SessionManager.createSessionKey id 10 ("0xfresh") 24 demoStore).address =
      id ("0xsessionsecret") ∧
    (SessionManager.createSessionKey id 10 ("0xfresh") 24 demoStore).store = demoStore ∧
    (SessionManager.createSessionKey id 10 ("0xfresh") 24 demoStore).delegationCalled =
      false :=
  claim_c6_session_reuse id 10 ("0xfresh") 24 demoStore ("0xsessionsecret") 1000
    rfl rfl (by decide)

/-- Claim C7: when the persisted session key or expiry is absent, or now is
at or past the expiry, createSessionKey adopts the freshly generated key
(whose address differs from any previously persisted key under the
freshness of the generator), persists it with expiry now + expiryHours
hours, which is strictly in the future for a positive expiryHours, and
invokes setupDelegation. -/
theorem claim_c7_session_renewal (addressOf : String → String) (now : Nat)
    (freshKey : String) (expiryHours : Nat) (store : SecureStore)
    (hstale : store.sessionKey = none ∨ store.sessionExpiry = none ∨
      ∃ e, store.sessionExpiry = some e ∧ e ≤ now)
    (hfresh : ∀ k, store.sessionKey = some k → addressOf freshKey ≠ addressOf k)
    (hpos : 0 < expiryHours) :
    (SessionManager.createSessionKey addressOf now freshKey expiryHours store).address =
      addressOf freshKey ∧
    (∀ k, store.sessionKey = some k →
      (SessionManager.createSessionKey addressOf now freshKey expiryHours store).address ≠
        addressOf k) ∧
    (SessionManager.createSessionKey addressOf now freshKey
        expiryHours store).store.sessionKey = some freshKey ∧
    (SessionManager.createSessionKey addressOf now freshKey
        expiryHours store).store.sessionExpiry =
      some (now + expiryHours * 60 * 60 * 1000) ∧
    now < now + expiryHours * 60 * 60 * 1000 ∧
    (SessionManager.createSessionKey addressOf now freshKey
      expiryHours store).delegationCalled = true := by
  have hr : SessionManager.createSessionKey addressOf now freshKey expiryHours store =
      { address := addressOf freshKey
        store :=
          { store with
            sessionKey := some freshKey
            sessionExpiry := some (now + expiryHours * 60 * 60 * 1000) }
        sessionExpiry := now + expiryHours * 60 * 60 * 1000
        delegationCalled := true } := by
    rcases hk : store.sessionKey with _ | k
    · rcases he : store.sessionExpiry with _ | e <;>
        simp [SessionManager.createSessionKey, hk, he]
    · rcases he : store.sessionExpiry with _ | e
      · simp [SessionManager.createSessionKey, hk, he]
      · rcases hstale with h | h | ⟨e2, he2, hle⟩
        · rw [hk] at h
          exact Option.noConfusion h
        · rw [he] at h
          exact Option.noConfusion h
        · rw [he] at he2
          have hee : e = e2 := Option.some.inj he2
          subst hee
          simp [SessionManager.createSessionKey, hk, he, not_lt.mpr hle]
  rw [hr]
  refine ⟨rfl, ?_, rfl, rfl, by omega, rfl⟩
  intro k hk2
  exact hfresh k hk2

/-- Witness for claim C7: a concrete store with an expired session key is
regenerated with a fresh key, a future expiry, and a delegation call. -/
theorem claim_c7_witness :
    (SessionManager.createSessionKey id 2000 ("0xfresh") 24 demoStore).address =
      id ("0xfresh") ∧
    (∀ k, demoStore.sessionKey = some k →
      (SessionManager.createSessionKey id 2000 ("0xfresh") 24 demoStore).address ≠ id k) ∧
    (SessionManager.createSessionKey id 2000 ("0xfresh") 24 demoStore).store.sessionKey =
      some ("0xfresh") ∧
    (SessionManager.createSessionKey id 2000 ("0xfresh") 24 demoStore).store.sessionExpiry =
      some (2000 + 24 * 60 * 60 * 1000) ∧
    2000 < 2000 + 24 * 60 * 60 * 1000 ∧
    (SessionManager.createSessionKey id 2000 ("0xfresh") 24 demoStore).delegationCalled =
      true :=
  claim_c7_session_renewal id 2000 ("0xfresh") 24 demoStore
    (Or.inr (Or.inr ⟨1000, rfl, by omega⟩))
    (fun k hk => by
      have hk' : k = "0xsessionsecret" := (Option.some.inj hk).symm
      subst hk'
      decide)
    (by omega)

/-- Claim C8: initMainWallet is idempotent over the persisted store — a
persisted main key is returned as its address with the store untouched, and
two sequential calls (with independent fresh draws) agree on the address
and on the final store. -/
theorem claim_c8_initMainWallet_idempotent (addressOf : String → String)
    (k1 k2 : String) (store : SecureStore) :
    (SessionManager.initMainWallet addressOf k2
        (SessionManager.initMainWallet addressOf k1 store).2).1 =
      (SessionManager.initMainWallet addressOf k1 store).1 ∧
    (SessionManager.initMainWallet addressOf k2
        (SessionManager.initMainWallet addressOf k1 store).2).2 =
      (SessionManager.initMainWallet addressOf k1 store).2 ∧
    (∀ pk, store.mainWallet = some pk →
      (SessionManager.initMainWallet addressOf k1 store).1 = addressOf pk ∧
      (SessionManager.initMainWallet addressOf k1 store).2 = store) := by
  rcases hm : store.mainWallet with _ | pk <;>
    simp [SessionManager.initMainWallet, hm]

/-- Witness for claim C8: with a persisted main key, the call returns its
address and leaves the store untouched. -/
theorem claim_c8_witness :
    (SessionManager.initMainWallet id ("0xk1") demoStore).1 = id ("0xmainsecret") ∧
    (SessionManager.initMainWallet id ("0xk1") demoStore).2 = demoStore :=
  (claim_c8_initMainWallet_idempotent id ("0xk1") ("0xk2") demoStore).2.2
    ("0xmainsecret") rfl

/-- Claim C9: once initialized, setupDelegation never propagates a relay
failure — it resolves to a boolean, and resolves to false whenever
wallet_prepareUpgradeAccount fails or wallet_upgradeAccount fails after a
successful prepare. -/
theorem claim_c9_setupDelegation_no_throw (acct : Account) (chainId : Nat)
    (proxy : String) (adminKeyAddress : Option String)
    (relayPrepare : PrepareUpgradeRequest → Except String PrepareUpgradeResponse)
    (relayUpgrade : UpgradeAccountRequest → Except String Json) :
    (∃ b n, PortoClient.setupDelegation (some acct) chainId proxy adminKeyAddress
        relayPrepare relayUpgrade = (Except.ok b, n)) ∧
    (∀ e, relayPrepare
        (PortoClient.prepareUpgradeRequestOf acct chainId proxy adminKeyAddress) =
        Except.error e →
      PortoClient.setupDelegation (some acct) chainId proxy adminKeyAddress
        relayPrepare relayUpgrade = (Except.ok false, 1)) ∧
    (∀ prep e,
      relayPrepare (PortoClient.prepareUpgradeRequestOf acct chainId proxy adminKeyAddress) =
        Except.ok prep →
      relayUpgrade (PortoClient.upgradeRequestOf acct prep) = Except.error e →
      PortoClient.setupDelegation (some acct) chainId proxy adminKeyAddress
        relayPrepare relayUpgrade = (Except.ok false, 2)) := by
  refine ⟨?_, ?_, ?_⟩
  · cases hp : relayPrepare
      (PortoClient.prepareUpgradeRequestOf acct chainId proxy adminKeyAddress) with
    | error e => exact ⟨false, 1, by simp [PortoClient.setupDelegation, hp]⟩
    | ok prep =>
      cases hu : relayUpgrade (PortoClient.upgradeRequestOf acct prep) with
      | error e => exact ⟨false, 2, by simp [PortoClient.setupDelegation, hp, hu]⟩
      | ok v => exact ⟨true, 2, by simp [PortoClient.setupDelegation, hp, hu]⟩
  · intro e hp
    simp [PortoClient.setupDelegation, hp]
  · intro prep e hp hu
    simp [PortoClient.setupDelegation, hp, hu]

/-- Witness for claim C9: a relay that rejects the prepare step makes
setupDelegation resolve to false rather than propagate the error. -/
theorem claim_c9_witness :
    PortoClient.setupDelegation (some demoAccount) 11155931 ("0xproxy") none
      (fun _ => Except.error ("RelayError: account already delegated"))
      (fun _ => Except.ok Json.null) = (Except.ok false, 1) :=
  (claim_c9_setupDelegation_no_throw demoAccount 11155931 ("0xproxy") none
    (fun _ => Except.error ("RelayError: account already delegated"))
    (fun _ => Except.ok Json.null)).2.1
    ("RelayError: account already delegated") rfl

/-- Claim C10: on an uninitialized client each of setupDelegation,
prepareCalls and sendPreparedCalls throws the client-not-initialized error
with zero relay requests issued, and setupDelegation in particular throws
instead of resolving to false. -/
theorem claim_c10_uninitialized_throws (chainId : Nat) (proxy : String)
    (adminKeyAddress : Option String) (calls : List PortoCall) (ctx : Json)
    (digest : String)
    (relayPrepare : PrepareUpgradeRequest → Except String PrepareUpgradeResponse)
    (relayUpgrade : UpgradeAccountRequest → Except String Json)
    (relayPrepareCalls : PrepareCallsRequest → Except String PrepareCallsResponse)
    (relaySend : SendPreparedCallsRequest → Except String Json) :
    PortoClient.setupDelegation none chainId proxy adminKeyAddress relayPrepare relayUpgrade =
      (Except.error ("Client not initialized"), 0) ∧
    PortoClient.prepareCalls none chainId calls relayPrepareCalls =
      (Except.error ("Client not initialized"), 0) ∧
    PortoClient.sendPreparedCalls none ctx digest relaySend =
      (Except.error ("Client not initialized"), []) ∧
    (PortoClient.setupDelegation none chainId proxy adminKeyAddress
      relayPrepare relayUpgrade).1 ≠ Except.ok false := by
  refine ⟨rfl, rfl, rfl, ?_⟩
  intro hcontr
  simp [PortoClient.setupDelegation] at hcontr

/-- Witness for claim C10: a concrete uninitialized client throws the
client-not-initialized error from setupDelegation without touching the
relay. -/
theorem claim_c10_witness :
    PortoClient.setupDelegation none 11155931 ("0xproxy") none
      (fun _ => Except.error ("unreachable")) (fun _ => Except.error ("unreachable")) =
      (Except.error ("Client not initialized"), 0) ∧
    PortoClient.sendPreparedCalls none Json.null ("0xdigest")
      (fun _ => Except.error ("unreachable")) =
      (Except.error ("Client not initialized"), []) :=
  ⟨(claim_c10_uninitialized_throws 11155931 ("0xproxy") none [] Json.null ("0xdigest")
      (fun _ => Except.error ("unreachable")) (fun _ => Except.error ("unreachable"))
      (fun _ => Except.error ("unreachable")) (fun _ => Except.error ("unreachable"))).1,
    (claim_c10_uninitialized_throws 11155931 ("0xproxy") none [] Json.null ("0xdigest")
      (fun _ => Except.error ("unreachable")) (fun _ => Except.error ("unreachable"))
      (fun _ => Except.error ("unreachable")) (fun _ => Except.error ("unreachable"))).2.2.1⟩
